import Mathlib

/-!
Verification of the MetaScooop performance-diagnostics and recommendation
engine (`src/app.py`) against its natural-language specification.

The development shallowly embeds the analytics core of `app.py`:

* `safe_float` / `dict_get` model the numeric-normalization boundary
  (`safe_float`, `dict.get`) of the Python code.  A Python value is modelled
  by `FieldVal`: `FieldVal.num q` stands for an actual number (int or float)
  of value `q`, `FieldVal.numStr q` stands for a numeric string that
  `float()` converts to `q` — `safe_float` treats the two alike, but a
  float format spec (`:.1f` / `:.2f`) applied to the raw value raises
  `ValueError` on a string, which the CTR rule's diagnosis does at lines
  106/109 — and `FieldVal.malformed` stands for `None`, the empty string,
  or any value on which `float()` fails; for those `safe_float` returns its
  default.  Machine floats are modelled by `ℚ`; the engine only ever
  compares, adds, divides and scales finitely many finite values, so the
  rational semantics coincides with the float semantics on every statement
  proved below except where a float would be NaN or infinite, which is
  modelled explicitly by `Option ℚ` (`none` = not a finite number).
* String interpolation of numeric values inside diagnosis texts
  (`f"... {x:.2f} ..."`) is abstracted: the diagnosis strings keep the
  surrounding literal text but omit the interpolated numerals, since no
  claim under verification inspects a formatted number.  Accented characters
  of the Portuguese literals are transliterated to plain ASCII.
* `generate_ai_optimization_recommendations` is assembled from one
  definition per numbered section of the Python function, in the order the
  sections run.  Python mutates the caller's temporal DataFrame in place
  (column assignments); the embedding makes this explicit by returning the
  final state of the optional temporal frame next to the recommendation
  list, and a raised Python exception is an `Except.error`.
-/

namespace MetaScooop

/-- A heterogeneous Python value read from an insights dictionary.
`num q` models an actual number (int or float) of value `q`; `numStr q`
models a numeric string that `float()` converts to `q` (the Meta API
delivers its metrics as strings); `malformed` models `None`, `''`, and
values `float()` rejects. -/
inductive FieldVal where
  | num (q : ℚ)
  | numStr (q : ℚ)
  | malformed
deriving DecidableEq

/-- `safe_float(value, default)` from `app.py` lines 26-30: returns the float
value of `value` (numbers and numeric strings alike), or `default` when
`value` is `None`, `''`, or fails to convert. -/
def safe_float (value : FieldVal) (default : ℚ) : ℚ :=
  match value with
  | .num q => q
  | .numStr q => q
  | .malformed => default

/-- Whether a float format spec (`:.1f` / `:.2f`) applied to the raw value
succeeds: true for actual numbers; false for strings — Python raises
`ValueError` (Unknown format code f) when a `str` is formatted with `f` —
and false for `None`-like values (a `TypeError`; such values never reach a
format site in the code because their `safe_float` guard is 0). -/
def formatsAsFloat : FieldVal → Bool
  | .num _ => true
  | .numStr _ => false
  | .malformed => false

/-- `d.get(key, default)` on an insights dictionary: an absent key yields the
numeric default (the code always passes `0`). -/
def dict_get (v : Option FieldVal) (default : ℚ) : FieldVal :=
  v.getD (.num default)

/-- `calculate_industry_benchmark(objective)` from `app.py` lines 42-52:
fixed objective → cost-per-result table with default fallback `20.00`. -/
def calculate_industry_benchmark (objective : String) : ℚ :=
  if objective = "CONVERSIONS" then 25
  else if objective = "LEAD_GENERATION" then 15
  else if objective = "LINK_CLICKS" then 6/5
  else if objective = "REACH" then 5
  else if objective = "BRAND_AWARENESS" then 10
  else if objective = "VIDEO_VIEWS" then 1/2
  else 20

/-- Helper for `str.split(sep)`: splits a character list at every occurrence
of `sep`, keeping empty pieces, exactly like Python's `split` with an
explicit separator. -/
def splitCharAux (sep : Char) : List Char → List Char → List (List Char)
  | [], acc => [acc.reverse]
  | c :: cs, acc =>
    if c = sep then acc.reverse :: splitCharAux sep cs []
    else splitCharAux sep cs (c :: acc)

/-- `s.split(sep)` for a one-character separator. -/
def splitChar (sep : Char) (s : String) : List String :=
  (splitCharAux sep s.toList []).map List.asString

/-- Value of a nonempty all-digit character list, `none` otherwise: the core
of Python's `int()` parsing. -/
def parseNatDigits (cs : List Char) : Option ℕ :=
  if cs = [] then none
  else
    cs.foldl
      (fun acc c =>
        match acc with
        | none => none
        | some n => if c.isDigit then some (n * 10 + (c.toNat - 48)) else none)
      (some 0)

/-- Python's `int(s)` on a trimmed decimal string: an optional minus sign
followed by digits; `none` models the raised `ValueError`. -/
def parseInt (s : String) : Option ℤ :=
  match s.toList with
  | '-' :: rest => (parseNatDigits rest).map (fun n => -(n : ℤ))
  | cs => (parseNatDigits cs).map (fun n => (n : ℤ))

/-- `age_sort_key(age_str)` from `app.py` lines 649-660: numeric sort key for
age buckets.  `"65+"` maps to `(65, 100)`; `"A-B"` maps to `(A, B)` when both
parts parse as integers; a bare integer `"A"` maps to `(A, A)`; everything
else (including failed parses, which raise in Python and are caught by the
bare `except`) maps to `(999, 999)`. -/
def age_sort_key (age_str : String) : ℤ × ℤ :=
  if age_str = "65+" then (65, 100)
  else if age_str.toList.contains '-' then
    match (splitChar '-' age_str).map parseInt with
    | [some a, some b] => (a, b)
    | _ => (999, 999)
  else
    match parseInt age_str with
    | some n => (n, n)
    | none => (999, 999)

/-- Python tuple comparison `(a1, a2) < (b1, b2)`: lexicographic. -/
def tuple_lt (a b : ℤ × ℤ) : Prop :=
  a.1 < b.1 ∨ (a.1 = b.1 ∧ a.2 < b.2)

instance : DecidableRel tuple_lt := fun a b =>
  inferInstanceAs (Decidable (a.1 < b.1 ∨ (a.1 = b.1 ∧ a.2 < b.2)))

/-- The `≤` counterpart of Python tuple comparison, used for the stable
ascending sort of `sort_values('sort_key')`. -/
def tuple_le (a b : ℤ × ℤ) : Prop :=
  tuple_lt a b ∨ a = b

instance : DecidableRel tuple_le := fun a b =>
  inferInstanceAs (Decidable (tuple_lt a b ∨ a = b))

/-- Sorting a list of age buckets by `age_sort_key`, ascending — the
`sort_values('sort_key')` step of `show_demographic_analysis` (lines
673-675) restricted to the bucket column. -/
def sortAgeBuckets (l : List String) : List String :=
  List.insertionSort (fun s t => tuple_le (age_sort_key s) (age_sort_key t)) l

/-- Severity tier of a recommendation; the code only ever uses the literals
`high`, `medium`, `low`. -/
inductive Severity where
  | high
  | medium
  | low
deriving DecidableEq

/-- A recommendation record as built by the rule bodies of
`generate_ai_optimization_recommendations` and `analyze_creative_elements`. -/
structure Recommendation where
  title : String
  severity : Severity
  diagnosis : String
  actions : List String
  expected_impact : String
  timeframe : String
deriving DecidableEq

/-- The aggregate insights dictionary consumed by the engine.  Each field the
code reads via `insights.get(name, 0)` is an optional `FieldVal`; `none`
models an absent key.  The raw counters (`impressions`, `clicks`,
`conversions`, `spend`) are carried so that claims can speak about records
holding them, although the engine itself never reads them. -/
structure Insights where
  ctr : Option FieldVal := none
  frequency : Option FieldVal := none
  cpm : Option FieldVal := none
  cost_per_conversion : Option FieldVal := none
  conversion_rate : Option FieldVal := none
  impressions : Option FieldVal := none
  clicks : Option FieldVal := none
  conversions : Option FieldVal := none
  spend : Option FieldVal := none
deriving DecidableEq

/-- The creative descriptor nested in `ad_details['creative']`; a `none`
field models an absent dictionary key. -/
structure Creative where
  primary_text : Option String := none
  cta : Option String := none
deriving DecidableEq

/-- The `ad_details` dictionary fields the engine reads.
`campaign_objective` is accessed by subscript in the code (so it is a
required field); the others are read with `.get` and are optional. -/
structure AdDetails where
  campaign_objective : String
  ad_type : Option String := none
  targeting : Option String := none
  bid_strategy : Option String := none
  creative : Option Creative := none
deriving DecidableEq

/-- One demographic (age, gender) row, as produced by `get_ad_demographics`
(lines 446-456): every field is already normalized by `safe_int`/`safe_float`
at the collection boundary. -/
structure DemographicRow where
  age : String
  gender : String
  impressions : ℤ
  reach : ℤ
  clicks : ℤ
  spend : ℚ
  conversions : ℤ
  ctr : ℚ
  cpm : ℚ
deriving DecidableEq

/-- A timestamp, as much of `pandas.Timestamp` as the code consumes:
`day` counts days since 1970-01-01 (a Thursday) and `hour` is the
hour-of-day component. -/
structure PyDate where
  day : ℕ
  hour : ℕ
deriving DecidableEq

/-- One row of the daily time series from `get_ad_insights_over_time`,
restricted to the columns the analyzed computations read. -/
structure TemporalRow where
  date_start : PyDate
  impressions : ℚ
  ctr : ℚ
  frequency : ℚ
  conversions : ℚ
deriving DecidableEq

/-- The temporal DataFrame.  `day_of_week` and `hour` model the two derived
columns the engine assigns in place (lines 200-201); they are `none` until
the engine adds them, which makes the in-place mutation of the caller's
frame observable. -/
structure TemporalFrame where
  rows : List TemporalRow
  day_of_week : Option (List String) := none
  hour : Option (List ℕ) := none
deriving DecidableEq

/-- `Timestamp.day_name()`: weekday name of a date.  Day 0 (1970-01-01) was
a Thursday. -/
def day_name (d : PyDate) : String :=
  (["Thursday", "Friday", "Saturday", "Sunday", "Monday", "Tuesday",
    "Wednesday"]).getD (d.day % 7) ""

/-!  ### Derived-metric calculators

The same ratios are computed in four places in `app.py` with two different
zero-denominator treatments; each is embedded separately and named after its
site. -/

/-- Segment-level `ctr` of `show_demographic_analysis` (line 644):
`(clicks / impressions.replace(0, 1)) * 100` — a zero denominator is
replaced by `1`, not guarded to result `0`. -/
def demo_ctr (d : DemographicRow) : ℚ :=
  ((d.clicks : ℚ) / (if d.impressions = 0 then 1 else (d.impressions : ℚ))) * 100

/-- Segment-level `conversion_rate` of `show_demographic_analysis`
(line 645): `(conversions / clicks.replace(0, 1)) * 100`. -/
def demo_conversion_rate (d : DemographicRow) : ℚ :=
  ((d.conversions : ℚ) / (if d.clicks = 0 then 1 else (d.clicks : ℚ))) * 100

/-- Segment-level `cost_per_conversion` of `show_demographic_analysis`
(line 646): `spend / conversions.replace(0, 1)`. -/
def demo_cost_per_conversion (d : DemographicRow) : ℚ :=
  d.spend / (if d.conversions = 0 then 1 else (d.conversions : ℚ))

/-- Segment `cpa` inside the engine's demographic step (line 181):
`spend / conversions.replace(0, 1)` — the same replace-by-1 pattern. -/
def demo_cpa (d : DemographicRow) : ℚ :=
  d.spend / (if d.conversions = 0 then 1 else (d.conversions : ℚ))

/-- Aggregate-level `conversion_rate` of `generate_strategic_analysis`
(line 1481): `(conversions / clicks) * 100 if clicks > 0 else 0`. -/
def strat_conversion_rate (conversions clicks : ℚ) : ℚ :=
  if clicks > 0 then conversions / clicks * 100 else 0

/-- Aggregate-level `cost_per_conversion` of `generate_strategic_analysis`
(line 1482): `spend / conversions if conversions > 0 else 0`. -/
def strat_cost_per_conversion (spend conversions : ℚ) : ℚ :=
  if conversions > 0 then spend / conversions else 0

/-- Aggregate-level `cpm` of `generate_strategic_analysis` (line 1483). -/
def strat_cpm (spend impressions : ℚ) : ℚ :=
  if impressions > 0 then spend / impressions * 1000 else 0

/-- Aggregate-level `cpc` of `generate_strategic_analysis` (line 1484). -/
def strat_cpc (spend clicks : ℚ) : ℚ :=
  if clicks > 0 then spend / clicks else 0

/-- Time-series `cpc` of `get_ad_insights_over_time` (line 797):
`np.where(clicks > 0, spend/clicks, 0)`, per row. -/
def ts_cpc (clicks spend : ℚ) : ℚ :=
  if clicks > 0 then spend / clicks else 0

/-- Time-series `conversion_rate` of `get_ad_insights_over_time`
(lines 800-802). -/
def ts_conversion_rate (clicks conversions : ℚ) : ℚ :=
  if clicks > 0 then conversions / clicks * 100 else 0

/-- Time-series `cost_per_conversion` of `get_ad_insights_over_time`
(lines 803-805). -/
def ts_cost_per_conversion (conversions spend : ℚ) : ℚ :=
  if conversions > 0 then spend / conversions else 0

/-- `last_7_days[col].pct_change().mean() * 100` from
`generate_strategic_analysis` (lines 1677-1682): the mean day-over-day
percent change of a metric column over the last (up to) 7 rows.  A
`pct_change` entry with previous value 0 is NaN when the current value is
also 0 (0/0) and infinite otherwise; `.mean()` skips NaN entries (the first
row's NaN and the 0/0 ones) but an infinite entry makes the mean
non-finite.  The result is `none` exactly when the float result is not a
finite number: some entry is infinite, or no finite entry exists (in
particular on an empty or one-row column). -/
def recent_growth_rate (col : List ℚ) : Option ℚ :=
  let last7 := col.drop (col.length - 7)
  let pairs := last7.zip last7.tail
  if pairs.any (fun p => decide (p.1 = 0 ∧ p.2 ≠ 0)) then none
  else
    let changes := (pairs.filter (fun p => decide (p.1 ≠ 0))).map (fun p => (p.2 - p.1) / p.1)
    if changes = [] then none
    else some (changes.sum / (changes.length : ℚ) * 100)

/-!  ### The rule battery of `generate_ai_optimization_recommendations`

One definition per numbered section of the Python function (lines 95-229).
Each section conditionally appends one recommendation; the embedding gives
each section as an `Option Recommendation` (or a list for the creative
analysis, which can emit two). -/

/-- Section 1 (lines 99-124): the CTR-urgency rule.  Fires when the percent
CTR is below `1.5 * 0.7 = 1.05`.  When it fires, its diagnosis f-strings
format the raw `frequency` (line 106, guard `> 3`) and raw `cpm` (line 109,
guard `> 1.5 * 1.3 = 1.95`) dictionary values with `:.1f` / `:.2f`; a raw
value that is a numeric string then raises `ValueError` instead of
emitting, aborting the whole engine run before sections 2 to 6. -/
def ctrRule (ad_details : AdDetails) (insights : Insights) :
    Except String (Option Recommendation) :=
  let ctr := safe_float (dict_get insights.ctr 0) 0 * 100
  let avg_ctr_benchmark : ℚ := 3/2
  if ctr < avg_ctr_benchmark * (7/10) then
    let freqRaw := dict_get insights.frequency 0
    let cpmRaw := dict_get insights.cpm 0
    if safe_float freqRaw 0 > 3 ∧ formatsAsFloat freqRaw = false then
      .error "ValueError: Unknown format code f for object of type str"
    else if safe_float cpmRaw 0 > avg_ctr_benchmark * (13/10) ∧
        formatsAsFloat cpmRaw = false then
      .error "ValueError: Unknown format code f for object of type str"
    else
      let causes : List String :=
        (if safe_float freqRaw 0 > 3 then
          ["Frequencia alta indicando possivel fadiga criativa"] else [])
        ++ (if safe_float cpmRaw 0 > avg_ctr_benchmark * (13/10) then
          ["CPM elevado sugerindo publico competitivo"] else [])
      let creative_type := ad_details.ad_type.getD "desconhecido"
      .ok (some
        { title := "Otimizacao de CTR Urgente"
          severity := .high
          diagnosis := "CTR muito baixo vs benchmark. Possiveis causas: "
            ++ (if causes = [] then "criativo ou segmentacao inadequados"
                else String.intercalate ", " causes)
          actions :=
            ["Testar 3 novos criativos de " ++ creative_type ++ " com abordagens diferentes",
             (if creative_type = "image" ∨ creative_type = "carousel" then
                "Reduzir texto principal para menos de 125 caracteres"
              else if creative_type = "video" then "Adicionar legendas claras"
              else "Simplificar mensagem"),
             "Ajustar publico-alvo (atual: " ++ ad_details.targeting.getD "nao especificado" ++ ")",
             "Implementar rodizio de criativos a cada 3 dias"]
          expected_impact := "Aumento de 30-50% no CTR"
          timeframe := "3-5 dias para ver resultados" })
  else .ok none

/-- Section 2 (lines 126-145): the cost-per-conversion rule.  It reads the
pre-supplied `cost_per_conversion` and `conversion_rate` dictionary fields —
never the raw counters — and fires when both are positive and the cost
exceeds `1.2` times the objective-aware benchmark. -/
def costRule (ad_details : AdDetails) (insights : Insights) : Option Recommendation :=
  let cost_per_conv := safe_float (dict_get insights.cost_per_conversion 0) 0
  let conv_rate := safe_float (dict_get insights.conversion_rate 0) 0
  if cost_per_conv > 0 ∧ conv_rate > 0 then
    let benchmark_cpa := calculate_industry_benchmark ad_details.campaign_objective
    if cost_per_conv > benchmark_cpa * (6/5) then
      some
        { title := "Reducao de Custo por Conversao"
          severity := .high
          diagnosis := "Custo por conversao esta acima do benchmark"
          actions :=
            ["Otimizar pagina de destino para melhorar taxa de conversao",
             "Testar novos CTAs no anuncio e na landing page",
             "Ajustar bid strategy (atual: " ++ ad_details.bid_strategy.getD "nao especificado" ++ ")",
             "Segmentar publico semelhante a converters (lookalike)"]
          expected_impact := "Reducao de 20-35% no CPA"
          timeframe := "1-2 semanas para otimizacao completa" }
    else none
  else none

/-- Section 3 (lines 147-168): the frequency-saturation rule.  Fires when
frequency exceeds `3.5`; when the ad type is `video` two video-specific
actions are appended (`rec['actions'].extend([...])`). -/
def frequencyRule (ad_details : AdDetails) (insights : Insights) : Option Recommendation :=
  let freq := safe_float (dict_get insights.frequency 0) 0
  if freq > 7/2 then
    let base_actions :=
      ["Pausar este anuncio por 7 dias",
       "Criar 2-3 variacoes com novos criativos",
       "Expandir publico-alvo em 15-20%"]
    some
      { title := "Rotacao de Criativos Necessaria"
        severity := .medium
        diagnosis := "Frequencia alta indica saturacao do publico"
        actions :=
          if ad_details.ad_type = some "video" then
            base_actions ++
              ["Testar versao resumida do video (15-30s)",
               "Adicionar hook nos primeiros 3 segundos"]
          else base_actions
        expected_impact := "Melhoria de 15-25% nas taxas de engajamento"
        timeframe := "Imediato" }
  else none

/-- The `sort_values('cpa', ascending=False).iloc[0]` step of the engine's
demographic section: a row with maximal `cpa`.  Pandas leaves the tie order
unspecified (its default sort is not stable); the embedding determinizes to
the first row attaining the maximum. -/
def worst_by_cpa (rows : List DemographicRow) : Option DemographicRow :=
  rows.foldl
    (fun best d =>
      match best with
      | none => some d
      | some b => if demo_cpa d > demo_cpa b then some d else best)
    none

/-- Section 4 (lines 170-196): the demographic-segmentation rule.  Skipped
for an absent/empty demographics list; otherwise compares the worst
segment's `cpa` against `1.5` times the aggregate `cost_per_conversion`
field read in section 2.  (The code's `if 'age' in d` filter is vacuous
here: every row produced by `get_ad_demographics` carries an `age` key.) -/
def demoRule (insights : Insights) (demographics : List DemographicRow) : Option Recommendation :=
  if demographics.isEmpty then none
  else
    match worst_by_cpa demographics with
    | none => none
    | some worst =>
      let cost_per_conv := safe_float (dict_get insights.cost_per_conversion 0) 0
      if demo_cpa worst > cost_per_conv * (3/2) then
        some
          { title := "Ajuste de Segmentacao Demografica"
            severity := .medium
            diagnosis := "Segmento " ++ worst.age ++ " " ++ worst.gender
              ++ " tem CPA acima da media"
            actions :=
              ["Reduzir orcamento para " ++ worst.age ++ " " ++ worst.gender ++ " em 30%",
               "Criar anuncio especifico para este segmento",
               "Testar mensagens personalizadas para este grupo"]
            expected_impact := "Reducao de 15-20% no CPA geral"
            timeframe := "5-7 dias" }
      else none

/-- Distinct keys of a column in first-appearance order, for `groupby`. -/
def uniqKeys {κ : Type} [DecidableEq κ] (l : List κ) : List κ :=
  l.foldl (fun acc k => if k ∈ acc then acc else acc ++ [k]) []

/-- `groupby(key)['conversions'].sum()` evaluated at one group key. -/
def group_sum {κ : Type} [DecidableEq κ] (rows : List TemporalRow)
    (key : TemporalRow → κ) (k : κ) : ℚ :=
  ((rows.filter (fun r => decide (key r = k))).map (·.conversions)).sum

/-- `groupby(key)['conversions'].sum().idxmax()`: the group key with maximal
summed conversions (first attaining group on ties), or `none` on an empty
frame — where pandas raises `ValueError`. -/
def idxmax_group {κ : Type} [DecidableEq κ] (rows : List TemporalRow)
    (key : TemporalRow → κ) : Option κ :=
  (uniqKeys (rows.map key)).foldl
    (fun best k =>
      match best with
      | none => some k
      | some b => if group_sum rows key k > group_sum rows key b then some k else best)
    none

/-- The scheduling recommendation literal of section 5 (lines 206-217). -/
def schedulingRec (best_day : String) (best_hour : ℕ) : Recommendation :=
  { title := "Otimizacao de Agendamento"
    severity := .low
    diagnosis := "Melhor desempenho as " ++ toString best_hour ++ "h nas " ++ best_day ++ "s"
    actions :=
      ["Concentrar 40% do orcamento nas " ++ best_day ++ "s",
       "Aumentar bids em 15% entre " ++ toString ((best_hour : ℤ) - 1) ++ "-"
         ++ toString ((best_hour : ℤ) + 1) ++ "h",
       "Reduzir bids em 20% nos horarios de pior desempenho"]
    expected_impact := "Aumento de 10-15% na eficiencia do orcamento"
    timeframe := "Proxima semana" }

/-- Section 5 (lines 198-217): the temporal step.  An absent (`None`) series
is skipped.  A present series is first mutated in place — the engine assigns
the derived `day_of_week` and `hour` columns on the caller's DataFrame —
and then `idxmax` is taken over the conversion sums per weekday and per
hour, which raises `ValueError` on an empty frame.  The returned frame is
the post-call state of the caller's object. -/
def temporalStep (temporal_data : Option TemporalFrame) :
    Except String (Option Recommendation × Option TemporalFrame) :=
  match temporal_data with
  | none => .ok (none, none)
  | some f =>
    let f2 : TemporalFrame :=
      { f with
        day_of_week := some (f.rows.map (fun r => day_name r.date_start))
        hour := some (f.rows.map (fun r => r.date_start.hour)) }
    match idxmax_group f2.rows (fun r => day_name r.date_start),
          idxmax_group f2.rows (fun r => r.date_start.hour) with
    | some bd, some bh => .ok (some (schedulingRec bd bh), some f2)
    | _, _ => .error "ValueError: attempt to get argmax of an empty sequence"

/-- Number of words of a text, `len(text.split())`: pieces between
whitespace runs (spaces in the embedding), empty pieces dropped. -/
def word_count (text : String) : ℕ :=
  ((splitChar ' ' text).filter (fun w => w ≠ "")).length

/-- `analyze_creative_elements(creative_data)` from lines 54-90: the
creative-text-length rule followed by the missing-call-to-action rule. -/
def analyze_creative_elements (creative_data : Creative) : List Recommendation :=
  (match creative_data.primary_text with
   | some text =>
     if word_count text > 125 then
       [{ title := "Otimizacao de Texto"
          severity := .medium
          diagnosis := "Texto muito longo, ideal e menor que 125 caracteres"
          actions :=
            ["Reduzir texto em 30-40% mantendo a mensagem principal",
             "Testar versao com bullet points",
             "Mover detalhes para a descricao ou website"]
          expected_impact := "Aumento de 10-20% no CTR"
          timeframe := "Imediato" }]
     else []
   | none => [])
  ++ (if creative_data.cta = none ∨ creative_data.cta = some "" then
       [{ title := "Adicionar Call-to-Action"
          severity := .high
          diagnosis := "Nenhum CTA especifico identificado no criativo"
          actions :=
            ["Adicionar CTA claro como Compre Agora ou Saiba Mais",
             "Posicionar CTA nos primeiros 3 segundos (video) ou acima do scroll (imagem)",
             "Testar 2-3 variacoes de CTA"]
          expected_impact := "Aumento de 15-25% nas conversoes"
          timeframe := "1-3 dias" }]
      else [])

/-- `priority_order` from line 226: severity rank used by the prioritizer. -/
def priority_order : Severity → ℕ
  | .high => 0
  | .medium => 1
  | .low => 2

/-- The prioritizer's comparison: `key=lambda x: priority_order[x['severity']]`. -/
def recLE (a b : Recommendation) : Prop :=
  priority_order a.severity ≤ priority_order b.severity

instance : DecidableRel recLE := fun a b =>
  inferInstanceAs (Decidable (priority_order a.severity ≤ priority_order b.severity))

instance : IsTotal Recommendation recLE :=
  ⟨fun a b => Nat.le_total (priority_order a.severity) (priority_order b.severity)⟩

instance : IsTrans Recommendation recLE :=
  ⟨fun _ _ _ => Nat.le_trans⟩

/-- The prioritizer (lines 226-227): Python's `list.sort` is a stable sort
by severity rank, modelled by insertion sort with the non-strict rank
comparison (any stable sort by the same key computes the same list). -/
def sortRecs (l : List Recommendation) : List Recommendation :=
  List.insertionSort recLE l

/-- The emitted (pre-sort) recommendation list: the section-1 result, then
sections 2-4, the temporal recommendation, and the creative analysis
(section 6), in the order the Python function appends them. -/
def emittedRecs (ad_details : AdDetails) (insights : Insights)
    (ctr_rec temporal_rec : Option Recommendation)
    (demographics : List DemographicRow) : List Recommendation :=
  ctr_rec.toList
    ++ (costRule ad_details insights).toList
    ++ (frequencyRule ad_details insights).toList
    ++ (demoRule insights demographics).toList
    ++ temporal_rec.toList
    ++ (match ad_details.creative with
        | some c => analyze_creative_elements c
        | none => [])

/-- `generate_ai_optimization_recommendations(ad_details, insights,
temporal_data, demographics)` (lines 95-229).  The result pairs the
prioritized recommendation list with the post-call state of the caller's
temporal frame (the engine assigns two derived columns on it in place); an
uncaught Python exception is an `Except.error`.  Two raise sites exist,
in program order: the CTR rule's diagnosis formatting (lines 106/109,
section 1 — before the temporal mutation), and `idxmax` on a present
temporal frame with no rows (lines 203-204, section 5).  Sections 2, 3, 4
and 6 cannot raise.  A `None`/empty demographics argument is the empty
list. -/
def generate_ai_optimization_recommendations (ad_details : AdDetails)
    (insights : Insights) (temporal_data : Option TemporalFrame)
    (demographics : List DemographicRow) :
    Except String (List Recommendation × Option TemporalFrame) :=
  match ctrRule ad_details insights with
  | .error e => .error e
  | .ok ctr_rec =>
    match temporalStep temporal_data with
    | .error e => .error e
    | .ok (temporal_rec, frame2) =>
      .ok (sortRecs (emittedRecs ad_details insights ctr_rec temporal_rec demographics),
        frame2)

/-!  ### Observation helpers -/

/-- The post-call state of the temporal frame, when the engine returned
normally. -/
def resultFrame (e : Except String (List Recommendation × Option TemporalFrame)) :
    Option (Option TemporalFrame) :=
  match e with
  | .ok p => some p.2
  | .error _ => none

/-- The action-list lengths of a normally returned recommendation list. -/
def resultActionLens (e : Except String (List Recommendation × Option TemporalFrame)) :
    List ℕ :=
  match e with
  | .ok p => p.1.map (fun r => r.actions.length)
  | .error _ => []

/-- The in-place column assignment the engine performs on a present temporal
frame (lines 200-201). -/
def addDerivedCols (f : TemporalFrame) : TemporalFrame :=
  { f with
    day_of_week := some (f.rows.map (fun r => day_name r.date_start))
    hour := some (f.rows.map (fun r => r.date_start.hour)) }

/-!  ### Stability of the prioritizer -/

theorem filter_orderedInsert_of_true (p : Recommendation → Bool) (x : Recommendation)
    (L : List Recommendation) (hx : p x = true)
    (hp : ∀ a b, p a = true → p b = true → recLE a b) :
    (List.orderedInsert recLE x L).filter p = x :: L.filter p := by
  induction L with
  | nil => simp [List.orderedInsert, hx]
  | cons y ys ih =>
    by_cases h : recLE x y
    · simp [List.orderedInsert, if_pos h, List.filter_cons, hx]
    · have hy : p y = false := by
        cases hyv : p y with
        | false => rfl
        | true => exact absurd (hp x y hx hyv) h
      simp [List.orderedInsert, if_neg h, List.filter_cons, hy, ih]

theorem filter_orderedInsert_of_false (p : Recommendation → Bool) (x : Recommendation)
    (L : List Recommendation) (hx : p x = false) :
    (List.orderedInsert recLE x L).filter p = L.filter p := by
  induction L with
  | nil => simp [List.orderedInsert, hx]
  | cons y ys ih =>
    by_cases h : recLE x y
    · simp [List.orderedInsert, if_pos h, List.filter_cons, hx]
    · simp [List.orderedInsert, if_neg h, List.filter_cons, ih]

theorem filter_sortRecs (p : Recommendation → Bool)
    (hp : ∀ a b, p a = true → p b = true → recLE a b) (l : List Recommendation) :
    (sortRecs l).filter p = l.filter p := by
  induction l with
  | nil => rfl
  | cons x xs ih =>
    show (List.orderedInsert recLE x (List.insertionSort recLE xs)).filter p = _
    cases hx : p x with
    | true =>
      rw [filter_orderedInsert_of_true p x _ hx hp,
        show List.insertionSort recLE xs = sortRecs xs from rfl, ih]
      simp [List.filter_cons, hx]
    | false =>
      rw [filter_orderedInsert_of_false p x _ hx,
        show List.insertionSort recLE xs = sortRecs xs from rfl, ih]
      simp [List.filter_cons, hx]

/-- Claim C4: the prioritizer's output is exactly the stable sort of the
emitted recommendation list by severity rank (high 0, medium 1, low 2):
the output is a permutation of the input, every lower-rank recommendation
precedes every higher-rank one, and within each severity the emission order
is preserved — so for recommendations of equal severity emitted in order
[A, B], the output keeps [A, B]. -/
theorem c4_prioritizer_stable_sort (l : List Recommendation) :
    List.Sorted recLE (sortRecs l) ∧
    (sortRecs l).Perm l ∧
    ∀ s : Severity,
      (sortRecs l).filter (fun r => r.severity == s) = l.filter (fun r => r.severity == s) := by
  refine ⟨List.sorted_insertionSort recLE l, List.perm_insertionSort recLE l, fun s => ?_⟩
  apply filter_sortRecs
  intro a b ha hb
  have ha' : a.severity = s := by simpa using ha
  have hb' : b.severity = s := by simpa using hb
  unfold recLE
  rw [ha', hb']

/-- Claim C9: `calculate_industry_benchmark` is the total lookup
CONVERSIONS → 25.00, LEAD_GENERATION → 15.00, LINK_CLICKS → 1.20,
REACH → 5.00, BRAND_AWARENESS → 10.00, VIDEO_VIEWS → 0.50, and every other
objective string → 20.00; it never errors on an unrecognized objective. -/
theorem c9_benchmark_table :
    calculate_industry_benchmark "CONVERSIONS" = 25 ∧
    calculate_industry_benchmark "LEAD_GENERATION" = 15 ∧
    calculate_industry_benchmark "LINK_CLICKS" = 6/5 ∧
    calculate_industry_benchmark "REACH" = 5 ∧
    calculate_industry_benchmark "BRAND_AWARENESS" = 10 ∧
    calculate_industry_benchmark "VIDEO_VIEWS" = 1/2 ∧
    ∀ objective : String, objective ≠ "CONVERSIONS" → objective ≠ "LEAD_GENERATION" →
      objective ≠ "LINK_CLICKS" → objective ≠ "REACH" → objective ≠ "BRAND_AWARENESS" →
      objective ≠ "VIDEO_VIEWS" → calculate_industry_benchmark objective = 20 := by
  refine ⟨rfl, rfl, rfl, rfl, rfl, rfl, ?_⟩
  intro s h1 h2 h3 h4 h5 h6
  simp [calculate_industry_benchmark, h1, h2, h3, h4, h5, h6]

/-- Witness for C9: the fallback branch at a concrete unrecognized
objective. -/
theorem c9_benchmark_table_witness :
    calculate_industry_benchmark "OUTCOME_TRAFFIC" = 20 :=
  c9_benchmark_table.2.2.2.2.2.2 "OUTCOME_TRAFFIC" (by decide) (by decide) (by decide)
    (by decide) (by decide) (by decide)

/-- Counterexample for C10: the bounded range "70-80" (key (70, 80)) sorts
after "65+" (key (65, 100)), so "65+" does not sort after all bounded
ranges; and the parsable bucket "1000-2000" (key (1000, 2000)) sorts after
the unparsable bucket "not-a-bucket" (key (999, 999)), so unparsable buckets
do not sort last. -/
theorem c10_counterexample :
    sortAgeBuckets ["70-80", "65+"] = ["65+", "70-80"] ∧
    sortAgeBuckets ["1000-2000", "not-a-bucket"] = ["not-a-bucket", "1000-2000"] := by
  decide

/-- Claim C10 (amended): the age-bucket sort key orders buckets numerically,
not lexically: "A-B" sorts by its lower bound with ties broken by the upper
bound; "65+" receives key (65, 100) and therefore sorts after every bucket
whose key has lower bound below 65 (in particular after every real Facebook
bucket), though not after ranges starting above 65; unparsable buckets
receive key (999, 999) and sort after every bucket whose key is smaller,
though not after ranges starting at 999 or beyond; the inputs
["45-54", "18-24", "65+", "35-44"] sort to
["18-24", "35-44", "45-54", "65+"]. -/
theorem c10_age_sort_amended :
    age_sort_key "65+" = (65, 100) ∧
    (∀ (s t : String) (a b c d : ℤ), age_sort_key s = (a, b) → age_sort_key t = (c, d) →
      a < c ∨ (a = c ∧ b < d) → tuple_lt (age_sort_key s) (age_sort_key t)) ∧
    (∀ (s : String) (a b : ℤ), age_sort_key s = (a, b) → a < 65 →
      tuple_lt (a, b) (age_sort_key "65+")) ∧
    (∀ (s : String) (a b : ℤ), age_sort_key s = (a, b) → a < 999 →
      tuple_lt (a, b) (999, 999)) ∧
    sortAgeBuckets ["45-54", "18-24", "65+", "35-44"] = ["18-24", "35-44", "45-54", "65+"] := by
  refine ⟨rfl, ?_, ?_, ?_, by decide⟩
  · intro s t a b c d hs ht h
    rw [hs, ht]
    exact h
  · intro s a b _ h
    exact Or.inl h
  · intro s a b _ h
    exact Or.inl h

/-- Witness for C10 (amended): concrete instances of the three
hypothesis-bearing conjuncts. -/
theorem c10_age_sort_amended_witness :
    tuple_lt (age_sort_key "18-24") (age_sort_key "25-34") ∧
    tuple_lt (55, 64) (age_sort_key "65+") ∧
    tuple_lt (18, 24) (999, 999) :=
  ⟨c10_age_sort_amended.2.1 "18-24" "25-34" 18 24 25 34 (by decide) (by decide)
      (Or.inl (by decide)),
   c10_age_sort_amended.2.2.1 "55-64" 55 64 (by decide) (by decide),
   c10_age_sort_amended.2.2.2.1 "18-24" 18 24 (by decide) (by decide)⟩

/-- A demographic segment row with spend 100 and zero conversions, for C1. -/
def c1Row : DemographicRow :=
  { age := "25-34", gender := "female", impressions := 1000, reach := 0, clicks := 10,
    spend := 100, conversions := 0, ctr := 1, cpm := 0 }

/-- Counterexample for C1: a demographic segment with conversions = 0 and
spend = 100 gets `cost_per_conversion = 100` (its spend), not 0 — the
segment-level computation replaces a zero denominator by 1 instead of
guarding the metric to 0. -/
theorem c1_counterexample :
    c1Row.conversions = 0 ∧ c1Row.spend = 100 ∧
    demo_cost_per_conversion c1Row = 100 ∧ demo_cost_per_conversion c1Row ≠ 0 := by
  refine ⟨rfl, rfl, ?_, ?_⟩ <;> norm_num [demo_cost_per_conversion, c1Row]

/-- Claim C1 (amended): the zero-denominator guard (denominator 0 ⇒ metric
0) holds at aggregate level (`generate_strategic_analysis`) and time-series
level (`get_ad_insights_over_time`), but at demographic-segment level the
code substitutes denominator 1 for 0 (`.replace(0, 1)`), so a segment with
conversions = 0 has cost_per_conversion = spend (and cpa = spend in the
engine's demographic step), a segment with impressions = 0 has
ctr = clicks × 100, and a segment with clicks = 0 has
conversion_rate = conversions × 100. -/
theorem c1_zero_guard_amended :
    (∀ r : DemographicRow, r.conversions = 0 → demo_cost_per_conversion r = r.spend) ∧
    (∀ r : DemographicRow, r.conversions = 0 → demo_cpa r = r.spend) ∧
    (∀ r : DemographicRow, r.impressions = 0 → demo_ctr r = (r.clicks : ℚ) * 100) ∧
    (∀ r : DemographicRow, r.clicks = 0 → demo_conversion_rate r = (r.conversions : ℚ) * 100) ∧
    (∀ s : ℚ, strat_cost_per_conversion s 0 = 0) ∧
    (∀ c : ℚ, strat_conversion_rate c 0 = 0) ∧
    (∀ s : ℚ, strat_cpm s 0 = 0) ∧
    (∀ s : ℚ, strat_cpc s 0 = 0) ∧
    (∀ s : ℚ, ts_cost_per_conversion 0 s = 0) ∧
    (∀ c : ℚ, ts_conversion_rate 0 c = 0) ∧
    (∀ s : ℚ, ts_cpc 0 s = 0) := by
  refine ⟨fun r h => ?_, fun r h => ?_, fun r h => ?_, fun r h => ?_,
    fun s => ?_, fun c => ?_, fun s => ?_, fun s => ?_, fun s => ?_, fun c => ?_, fun s => ?_⟩
  · simp [demo_cost_per_conversion, h]
  · simp [demo_cpa, h]
  · simp [demo_ctr, h]
  · simp [demo_conversion_rate, h]
  · simp [strat_cost_per_conversion]
  · simp [strat_conversion_rate]
  · simp [strat_cpm]
  · simp [strat_cpc]
  · simp [ts_cost_per_conversion]
  · simp [ts_conversion_rate]
  · simp [ts_cpc]

/-- Witness for C1 (amended): the segment-level substitution evaluated at a
concrete row with zero conversions. -/
theorem c1_zero_guard_amended_witness :
    demo_cost_per_conversion c1Row = c1Row.spend ∧ demo_cpa c1Row = c1Row.spend ∧
    demo_conversion_rate { c1Row with clicks := 0 } =
      (({ c1Row with clicks := 0 } : DemographicRow).conversions : ℚ) * 100 :=
  ⟨c1_zero_guard_amended.1 c1Row rfl,
   c1_zero_guard_amended.2.1 c1Row rfl,
   c1_zero_guard_amended.2.2.2.1 { c1Row with clicks := 0 } rfl⟩

/-!  ### Behavior of the temporal step -/

theorem foldl_append_singleton_ne_nil {κ : Type} (l : List κ)
    (step : List κ → κ → List κ)
    (hstep : ∀ acc k, acc ≠ [] → step acc k ≠ []) :
    ∀ acc : List κ, acc ≠ [] → l.foldl step acc ≠ [] := by
  induction l with
  | nil => intro acc h; exact h
  | cons k ks ih => intro acc h; exact ih (step acc k) (hstep acc k h)

theorem uniqKeys_ne_nil {κ : Type} [DecidableEq κ] (l : List κ) (h : l ≠ []) :
    uniqKeys l ≠ [] := by
  match l with
  | [] => exact absurd rfl h
  | k :: ks =>
    show (ks.foldl _ (if k ∈ ([] : List κ) then [] else [] ++ [k])) ≠ []
    rw [if_neg (List.not_mem_nil k)]
    apply foldl_append_singleton_ne_nil
    · intro acc k' hacc
      by_cases hk : k' ∈ acc
      · simpa [hk] using hacc
      · simp [hk]
    · simp

theorem foldl_idxmax_some {κ : Type} [DecidableEq κ] (rows : List TemporalRow)
    (key : TemporalRow → κ) (l : List κ) (b : κ) :
    (l.foldl
      (fun best k =>
        match best with
        | none => some k
        | some b => if group_sum rows key k > group_sum rows key b then some k else best)
      (some b)).isSome = true := by
  induction l generalizing b with
  | nil => rfl
  | cons k ks ih =>
    show (ks.foldl _ (if _ then some k else some b)).isSome = true
    by_cases h : group_sum rows key k > group_sum rows key b
    · rw [if_pos h]; exact ih k
    · rw [if_neg h]; exact ih b

theorem idxmax_group_isSome {κ : Type} [DecidableEq κ] (rows : List TemporalRow)
    (key : TemporalRow → κ) (h : rows ≠ []) :
    (idxmax_group rows key).isSome = true := by
  unfold idxmax_group
  have hmap : rows.map key ≠ [] := by
    intro hc; exact h (List.map_eq_nil_iff.mp hc)
  obtain ⟨k, ks, hks⟩ := List.exists_cons_of_ne_nil (uniqKeys_ne_nil _ hmap)
  rw [hks]
  exact foldl_idxmax_some rows key ks k

theorem temporalStep_of_ne_nil (f : TemporalFrame) (h : f.rows ≠ []) :
    ∃ bd bh, temporalStep (some f) =
      Except.ok (some (schedulingRec bd bh), some (addDerivedCols f)) := by
  unfold temporalStep
  obtain ⟨bd, hbd⟩ := Option.isSome_iff_exists.mp (idxmax_group_isSome f.rows (fun r => day_name r.date_start) h)
  obtain ⟨bh, hbh⟩ := Option.isSome_iff_exists.mp (idxmax_group_isSome f.rows (fun r => r.date_start.hour) h)
  refine ⟨bd, bh, ?_⟩
  show (match idxmax_group f.rows (fun r => day_name r.date_start),
            idxmax_group f.rows (fun r => r.date_start.hour) with
    | some bd, some bh => Except.ok (some (schedulingRec bd bh), some (addDerivedCols f))
    | _, _ =>
      Except.error "ValueError: attempt to get argmax of an empty sequence") =
    Except.ok (some (schedulingRec bd bh), some (addDerivedCols f))
  rw [hbd, hbh]

theorem temporalStep_empty (f : TemporalFrame) (h : f.rows = []) :
    temporalStep (some f) =
      Except.error "ValueError: attempt to get argmax of an empty sequence" := by
  have h1 : idxmax_group f.rows (fun r => day_name r.date_start) = none := by
    rw [h]; rfl
  show (match idxmax_group f.rows (fun r => day_name r.date_start),
            idxmax_group f.rows (fun r => r.date_start.hour) with
    | some bd, some bh => Except.ok (some (schedulingRec bd bh), some (addDerivedCols f))
    | _, _ =>
      Except.error "ValueError: attempt to get argmax of an empty sequence") =
    Except.error "ValueError: attempt to get argmax of an empty sequence"
  rw [h1]

theorem temporalStep_rec_shape (t : Option TemporalFrame) (rec : Recommendation)
    (f2 : Option TemporalFrame)
    (h : temporalStep t = Except.ok (some rec, f2)) :
    ∃ bd bh, rec = schedulingRec bd bh := by
  cases t with
  | none =>
    simp only [temporalStep] at h
    exact absurd (congrArg (fun e => match e with
      | Except.ok (p : Option Recommendation × Option TemporalFrame) => p.1
      | Except.error _ => none) h) (by simp)
  | some f =>
    by_cases hr : f.rows = []
    · rw [temporalStep_empty f hr] at h
      exact Except.noConfusion h
    · obtain ⟨bd, bh, hstep⟩ := temporalStep_of_ne_nil f hr
      rw [hstep] at h
      obtain ⟨h1, -⟩ := Prod.mk.injEq .. ▸ Except.ok.inj h
      exact ⟨bd, bh, (Option.some_inj.mp h1).symm⟩

/-!  ### Behavior of the cost-per-conversion rule -/

theorem costRule_isSome_iff (d : AdDetails) (i : Insights) :
    (costRule d i).isSome = true ↔
      (0 < safe_float (dict_get i.cost_per_conversion 0) 0 ∧
       0 < safe_float (dict_get i.conversion_rate 0) 0 ∧
       calculate_industry_benchmark d.campaign_objective * (6/5) <
         safe_float (dict_get i.cost_per_conversion 0) 0) := by
  unfold costRule
  dsimp only
  split_ifs with h1 h2
  · exact iff_of_true rfl ⟨h1.1, h1.2, h2⟩
  · exact iff_of_false (by simp) (fun h => h2 h.2.2)
  · exact iff_of_false (by simp) (fun h => h1 ⟨h.1, h.2.1⟩)

theorem costRule_severity (d : AdDetails) (i : Insights) (r : Recommendation)
    (h : costRule d i = some r) : r.severity = Severity.high := by
  unfold costRule at h
  dsimp only at h
  split_ifs at h
  rw [Option.some_inj] at h
  subst h
  rfl

theorem costRule_eq_none_of_zero (d : AdDetails) (i : Insights)
    (h : safe_float (dict_get i.cost_per_conversion 0) 0 = 0 ∨
         safe_float (dict_get i.conversion_rate 0) 0 = 0) :
    costRule d i = none := by
  unfold costRule
  rcases h with h | h <;> simp [h]

/-- Insights record for the C5 counterexample: all raw counters are zero,
yet the pre-supplied ratio fields are positive. -/
def c5Ins : Insights :=
  { cost_per_conversion := some (.num 100), conversion_rate := some (.num 5),
    clicks := some (.num 0), conversions := some (.num 0), spend := some (.num 0) }

/-- Ad details with the CONVERSIONS objective (benchmark 25). -/
def convDetails : AdDetails := { campaign_objective := "CONVERSIONS" }

/-- Counterexample for C5: an InsightRecord with clicks = 0, conversions = 0
and spend = 0 whose pre-supplied `cost_per_conversion` and `conversion_rate`
fields are 100 and 5: the rule reads the fields, not the counters, so
cost_per_conversion is 100 (not 0) and the rule fires. -/
theorem c5_counterexample :
    safe_float (dict_get c5Ins.clicks 0) 0 = 0 ∧
    safe_float (dict_get c5Ins.conversions 0) 0 = 0 ∧
    safe_float (dict_get c5Ins.spend 0) 0 = 0 ∧
    safe_float (dict_get c5Ins.cost_per_conversion 0) 0 = 100 ∧
    (costRule convDetails c5Ins).isSome = true := by
  refine ⟨rfl, rfl, rfl, rfl, ?_⟩
  norm_num [costRule, calculate_industry_benchmark, dict_get, safe_float, c5Ins, convDetails]

/-- Claim C5 (amended): the cost-per-conversion rule emits a recommendation
(with severity high) iff cost_per_conversion > 0 and conversion_rate > 0 and
cost_per_conversion > 1.2 × benchmark_for(objective) — where both ratios are
the record's own pre-supplied fields, never derived from the raw counters;
in particular, for every InsightRecord whose `cost_per_conversion` or
`conversion_rate` field is absent, malformed, or 0 (e.g., a record carrying
only clicks = 0, conversions = 0, spend = 0), the rule does not fire. -/
theorem c5_cost_rule_amended :
    (∀ (d : AdDetails) (i : Insights),
      (costRule d i).isSome = true ↔
        (0 < safe_float (dict_get i.cost_per_conversion 0) 0 ∧
         0 < safe_float (dict_get i.conversion_rate 0) 0 ∧
         calculate_industry_benchmark d.campaign_objective * (6/5) <
           safe_float (dict_get i.cost_per_conversion 0) 0)) ∧
    (∀ (d : AdDetails) (i : Insights) (r : Recommendation),
      costRule d i = some r → r.severity = Severity.high) ∧
    (∀ (d : AdDetails) (i : Insights),
      safe_float (dict_get i.cost_per_conversion 0) 0 = 0 ∨
      safe_float (dict_get i.conversion_rate 0) 0 = 0 → costRule d i = none) :=
  ⟨costRule_isSome_iff, costRule_severity, costRule_eq_none_of_zero⟩

/-- Witness for C5 (amended): the rule fires at a concrete record meeting
the triple guard, and the firing recommendation has severity high; it does
not fire at a record whose ratio fields are absent. -/
theorem c5_cost_rule_amended_witness :
    (costRule convDetails
      { cost_per_conversion := some (.num 100), conversion_rate := some (.num 5) }).isSome
        = true ∧
    costRule convDetails { clicks := some (.num 7) } = none :=
  ⟨(c5_cost_rule_amended.1 convDetails
      { cost_per_conversion := some (.num 100), conversion_rate := some (.num 5) }).mpr
      ⟨by norm_num [dict_get, safe_float], by norm_num [dict_get, safe_float],
        by norm_num [calculate_industry_benchmark, dict_get, safe_float, convDetails]⟩,
   c5_cost_rule_amended.2.2 convDetails { clicks := some (.num 7) } (Or.inl rfl)⟩

/-- Claim C7: the cost-per-conversion rule reads the pre-supplied
`cost_per_conversion` and `conversion_rate` fields directly from the record
and never derives them from the raw counters: whenever either named field is
absent or normalizes to 0, the rule does not fire, regardless of the spend,
clicks and conversions values carried by the same record. -/
theorem c7_cost_rule_reads_fields (d : AdDetails) (i : Insights)
    (h : safe_float (dict_get i.cost_per_conversion 0) 0 = 0 ∨
         safe_float (dict_get i.conversion_rate 0) 0 = 0) :
    costRule d i = none :=
  costRule_eq_none_of_zero d i h

/-- Insights record for the C7 witness: large raw counters that would yield
a high derived cost-per-conversion, but no `cost_per_conversion` field. -/
def c7Ins : Insights :=
  { spend := some (.num 10000), clicks := some (.num 500), conversions := some (.num 3) }

/-- Witness for C7: the rule stays silent on a record with large raw
counters and an absent `cost_per_conversion` field. -/
theorem c7_cost_rule_reads_fields_witness :
    costRule convDetails c7Ins = none :=
  c7_cost_rule_reads_fields convDetails c7Ins (Or.inl rfl)

/-!  ### Empty temporal series (C2) and the frame effect (C3)

Both claims speak about runs that get past section 1: when the CTR rule's
diagnosis formatting raises (a string-typed raw `frequency` parsing above 3
or raw `cpm` parsing above 1.95, on a low-CTR record), the program aborts at
line 106/109 before the demographic and temporal sections.  The lemma
`ctrRule_ok_of_fmt` captures the no-raise condition. -/

/-- Ad details with no optional fields, used in concrete runs. -/
def plainDetails : AdDetails := { campaign_objective := "X" }

/-- The empty insights record: every field absent. -/
def emptyInsights : Insights := {}

theorem ctrRule_ok_of_fmt (d : AdDetails) (i : Insights)
    (hfreq : safe_float (dict_get i.frequency 0) 0 > 3 →
      formatsAsFloat (dict_get i.frequency 0) = true)
    (hcpm : safe_float (dict_get i.cpm 0) 0 > (3/2 : ℚ) * (13/10) →
      formatsAsFloat (dict_get i.cpm 0) = true) :
    ∃ o, ctrRule d i = Except.ok o := by
  unfold ctrRule
  dsimp only
  by_cases h1 : safe_float (dict_get i.ctr 0) 0 * 100 < (3/2 : ℚ) * (7/10)
  · rw [if_pos h1]
    have hf : ¬(safe_float (dict_get i.frequency 0) 0 > 3 ∧
        formatsAsFloat (dict_get i.frequency 0) = false) := by
      rintro ⟨ha, hb⟩
      rw [hfreq ha] at hb
      exact Bool.noConfusion hb
    rw [if_neg hf]
    have hc : ¬(safe_float (dict_get i.cpm 0) 0 > (3/2 : ℚ) * (13/10) ∧
        formatsAsFloat (dict_get i.cpm 0) = false) := by
      rintro ⟨ha, hb⟩
      rw [hcpm ha] at hb
      exact Bool.noConfusion hb
    rw [if_neg hc]
    exact ⟨_, rfl⟩
  · rw [if_neg h1]
    exact ⟨_, rfl⟩

/-- Counterexample for C2: on the empty series the growth-rate computation
yields NaN (`none`), not 0, and a present-but-empty TemporalSeries makes the
engine raise pandas' `ValueError` from `idxmax` instead of signalling
"insufficient data". -/
theorem c2_counterexample :
    recent_growth_rate [] ≠ some 0 ∧
    generate_ai_optimization_recommendations plainDetails emptyInsights
        (some { rows := [] }) [] =
      Except.error "ValueError: attempt to get argmax of an empty sequence" := by
  constructor
  · decide
  · obtain ⟨o, ho⟩ := ctrRule_ok_of_fmt plainDetails emptyInsights
      (fun h => absurd h (by norm_num [dict_get, safe_float, emptyInsights]))
      (fun h => absurd h (by norm_num [dict_get, safe_float, emptyInsights]))
    unfold generate_ai_optimization_recommendations
    rw [ho, temporalStep_empty { rows := [] } rfl]

/-- Claim C2 (amended): only an absent (`None`) TemporalSeries is guarded.
On a series of length 0 the growth-rate computation
(`pct_change().mean() * 100`) yields NaN rather than 0, and — on every run
that gets past the CTR rule's diagnosis formatting, i.e. whose raw
`frequency`/`cpm` values are actual numbers whenever they parse above their
thresholds 3 / 1.95 — `best_day_of_week` / `best_hour` (`idxmax` over the
weekday and hour groups) raise `ValueError` rather than signalling
"insufficient data", aborting the engine run. -/
theorem c2_empty_series_amended :
    recent_growth_rate [] = none ∧
    ∀ (d : AdDetails) (i : Insights) (demo : List DemographicRow)
      (dw : Option (List String)) (hc : Option (List ℕ)),
      (safe_float (dict_get i.frequency 0) 0 > 3 →
        formatsAsFloat (dict_get i.frequency 0) = true) →
      (safe_float (dict_get i.cpm 0) 0 > (3/2 : ℚ) * (13/10) →
        formatsAsFloat (dict_get i.cpm 0) = true) →
      generate_ai_optimization_recommendations d i
          (some { rows := [], day_of_week := dw, hour := hc }) demo =
        Except.error "ValueError: attempt to get argmax of an empty sequence" := by
  refine ⟨rfl, fun d i demo dw hc hfreq hcpm => ?_⟩
  obtain ⟨o, ho⟩ := ctrRule_ok_of_fmt d i hfreq hcpm
  unfold generate_ai_optimization_recommendations
  rw [ho, temporalStep_empty { rows := [], day_of_week := dw, hour := hc } rfl]

/-- Witness for C2 (amended): a concrete run on an empty series (whose frame
already carries empty derived columns) aborts with the `idxmax` error. -/
theorem c2_empty_series_amended_witness :
    generate_ai_optimization_recommendations plainDetails emptyInsights
        (some { rows := [], day_of_week := some [], hour := some [] }) [] =
      Except.error "ValueError: attempt to get argmax of an empty sequence" :=
  c2_empty_series_amended.2 plainDetails emptyInsights [] (some []) (some [])
    (fun h => absurd h (by norm_num [dict_get, safe_float, emptyInsights]))
    (fun h => absurd h (by norm_num [dict_get, safe_float, emptyInsights]))

/-- The one-row temporal frame used to exhibit the C3 mutation. -/
def c3Frame : TemporalFrame :=
  { rows := [{ date_start := ⟨0, 0⟩, impressions := 0, ctr := 0, frequency := 0,
               conversions := 0 }] }

/-- Counterexample for C3: after a run on a one-row TemporalSeries the
caller's frame carries the two derived columns the engine assigned in place
(`day_of_week`, `hour`) — it is not the frame that was passed in. -/
theorem c3_counterexample :
    resultFrame (generate_ai_optimization_recommendations plainDetails emptyInsights
        (some c3Frame) []) =
      some (some { c3Frame with day_of_week := some ["Thursday"], hour := some [0] }) ∧
    ({ c3Frame with day_of_week := some ["Thursday"], hour := some [0] } : TemporalFrame)
      ≠ c3Frame := by
  constructor
  · obtain ⟨o, ho⟩ := ctrRule_ok_of_fmt plainDetails emptyInsights
      (fun h => absurd h (by norm_num [dict_get, safe_float, emptyInsights]))
      (fun h => absurd h (by norm_num [dict_get, safe_float, emptyInsights]))
    obtain ⟨bd, bh, hstep⟩ := temporalStep_of_ne_nil c3Frame (by simp [c3Frame])
    unfold generate_ai_optimization_recommendations
    rw [ho, hstep]
    rfl
  · decide

/-- Claim C3 (amended): the engine is pure over the ad context, the insights
record and the demographics rows (the embedding passes them by value and
they cannot change), but it is not side-effect-free over the TemporalSeries:
on every run that gets past the CTR rule's diagnosis formatting (raw
`frequency`/`cpm` values that are actual numbers whenever they parse above
their thresholds 3 / 1.95) with a present temporal frame, it assigns the
derived `day_of_week` and `hour` columns on the caller's frame in place, so
the series differs after the call; an absent series stays absent, and a
present-but-empty series aborts the run.  When the formatting does raise,
the program aborts at line 106/109 before the temporal section and the
frame is left untouched. -/
theorem c3_frame_effect_amended (d : AdDetails) (i : Insights)
    (t : Option TemporalFrame) (demo : List DemographicRow)
    (hfreq : safe_float (dict_get i.frequency 0) 0 > 3 →
      formatsAsFloat (dict_get i.frequency 0) = true)
    (hcpm : safe_float (dict_get i.cpm 0) 0 > (3/2 : ℚ) * (13/10) →
      formatsAsFloat (dict_get i.cpm 0) = true) :
    resultFrame (generate_ai_optimization_recommendations d i t demo) =
      match t with
      | none => some none
      | some f => if f.rows = [] then none else some (some (addDerivedCols f)) := by
  obtain ⟨o, ho⟩ := ctrRule_ok_of_fmt d i hfreq hcpm
  unfold generate_ai_optimization_recommendations
  rw [ho]
  cases t with
  | none => rfl
  | some f =>
    by_cases hr : f.rows = []
    · rw [temporalStep_empty f hr]
      simp [resultFrame, hr]
    · obtain ⟨bd, bh, hstep⟩ := temporalStep_of_ne_nil f hr
      rw [hstep]
      simp [resultFrame, hr]

/-- Witness for C3 (amended): a concrete run with an absent series leaves it
absent. -/
theorem c3_frame_effect_amended_witness :
    resultFrame (generate_ai_optimization_recommendations plainDetails emptyInsights
        none []) = some none :=
  c3_frame_effect_amended plainDetails emptyInsights none []
    (fun h => absurd h (by norm_num [dict_get, safe_float, emptyInsights]))
    (fun h => absurd h (by norm_num [dict_get, safe_float, emptyInsights]))

/-!  ### Action-list sizes (C6) and the CTR rule on missing data (C8) -/

theorem ctrRule_actions_length (d : AdDetails) (i : Insights) (r : Recommendation)
    (h : ctrRule d i = Except.ok (some r)) : r.actions.length = 4 := by
  unfold ctrRule at h
  dsimp only at h
  split_ifs at h <;>
    first
      | exact Except.noConfusion h
      | (rw [Except.ok.injEq] at h; exact Option.noConfusion h)
      | (rw [Except.ok.injEq, Option.some_inj] at h; subst h; rfl)

theorem costRule_actions_length (d : AdDetails) (i : Insights) (r : Recommendation)
    (h : costRule d i = some r) : r.actions.length = 4 := by
  unfold costRule at h
  dsimp only at h
  split_ifs at h
  rw [Option.some_inj] at h
  subst h
  rfl

theorem frequencyRule_actions_length (d : AdDetails) (i : Insights) (r : Recommendation)
    (h : frequencyRule d i = some r) :
    r.actions.length = 3 ∨ r.actions.length = 5 := by
  unfold frequencyRule at h
  dsimp only at h
  split_ifs at h with h1 h2
  · rw [Option.some_inj] at h; subst h; right; rfl
  · rw [Option.some_inj] at h; subst h; left; rfl

theorem demoRule_actions_length (i : Insights) (demo : List DemographicRow)
    (r : Recommendation) (h : demoRule i demo = some r) : r.actions.length = 3 := by
  unfold demoRule at h
  split_ifs at h with h1
  cases hw : worst_by_cpa demo with
  | none => rw [hw] at h; exact Option.noConfusion h
  | some w =>
    rw [hw] at h
    dsimp only at h
    split_ifs at h with h2
    rw [Option.some_inj] at h
    subst h
    rfl

theorem analyze_creative_actions_length (c : Creative) (r : Recommendation)
    (h : r ∈ analyze_creative_elements c) : r.actions.length = 3 := by
  unfold analyze_creative_elements at h
  rw [List.mem_append] at h
  rcases h with h | h
  · cases hp : c.primary_text with
    | none => simp [hp] at h
    | some text =>
      by_cases hw : word_count text > 125
      · simp only [hp, if_pos hw, List.mem_singleton] at h
        subst h; rfl
      · simp [hp, hw] at h
  · by_cases hc : c.cta = none ∨ c.cta = some ""
    · simp only [if_pos hc, List.mem_singleton] at h
      subst h; rfl
    · simp [if_neg hc] at h

/-- Insights for the C6 counterexample: healthy CTR, frequency 4. -/
def c6Ins : Insights := { ctr := some (.num (1/10)), frequency := some (.num 4) }

/-- Ad details for the C6 counterexample: a video ad. -/
def c6Det : AdDetails := { campaign_objective := "X", ad_type := some "video" }

/-- Counterexample for C6: on a video ad with frequency 4 the
frequency-saturation rule extends its 3 base actions with 2 video-specific
ones, emitting a recommendation with 5 actions — outside the claimed 2-to-4
range. -/
theorem c6_counterexample :
    resultActionLens (generate_ai_optimization_recommendations c6Det c6Ins none []) = [5] := by
  norm_num [resultActionLens, generate_ai_optimization_recommendations, temporalStep,
    emittedRecs, ctrRule, costRule, frequencyRule, demoRule, sortRecs, dict_get, safe_float,
    formatsAsFloat, c6Det, c6Ins, List.insertionSort, List.orderedInsert]

/-- Claim C6 (amended): every recommendation emitted by any rule of the
engine carries a non-empty ordered action list of 2 to 5 items (the rules
emit 3 or 4 actions, except the frequency-saturation rule on a video ad,
which emits 5), for every input bundle on which the engine returns. -/
theorem c6_actions_amended (d : AdDetails) (i : Insights) (t : Option TemporalFrame)
    (demo : List DemographicRow) (out : List Recommendation × Option TemporalFrame)
    (h : generate_ai_optimization_recommendations d i t demo = Except.ok out) :
    ∀ r ∈ out.1, 2 ≤ r.actions.length ∧ r.actions.length ≤ 5 := by
  intro r hr
  unfold generate_ai_optimization_recommendations at h
  cases hcr : ctrRule d i with
  | error e => rw [hcr] at h; exact Except.noConfusion h
  | ok ctrRec =>
    rw [hcr] at h
    dsimp only at h
    cases ht : temporalStep t with
    | error e => rw [ht] at h; exact Except.noConfusion h
    | ok p =>
      obtain ⟨trec, f2⟩ := p
      rw [ht] at h
      dsimp only at h
      rw [Except.ok.injEq] at h
      subst h
      have hrE : r ∈ emittedRecs d i ctrRec trec demo :=
        (List.perm_insertionSort recLE (emittedRecs d i ctrRec trec demo)).mem_iff.mp hr
      simp only [emittedRecs, List.mem_append] at hrE
      rcases hrE with ((((h1 | h2) | h3) | h4) | h5) | h6
      · rw [Option.mem_toList, Option.mem_def] at h1
        rw [h1] at hcr
        have := ctrRule_actions_length d i r hcr
        omega
      · rw [Option.mem_toList, Option.mem_def] at h2
        have := costRule_actions_length d i r h2
        omega
      · rw [Option.mem_toList, Option.mem_def] at h3
        have := frequencyRule_actions_length d i r h3
        rcases this with h | h <;> omega
      · rw [Option.mem_toList, Option.mem_def] at h4
        have := demoRule_actions_length i demo r h4
        omega
      · rw [Option.mem_toList, Option.mem_def] at h5
        rw [h5] at ht
        obtain ⟨bd, bh, hshape⟩ := temporalStep_rec_shape t r f2 ht
        subst hshape
        simp [schedulingRec]
      · cases hc : d.creative with
        | none => rw [hc] at h6; simp at h6
        | some c =>
          rw [hc] at h6
          dsimp only at h6
          have := analyze_creative_actions_length c r h6
          omega

/-- Insights for the C6 witness: healthy CTR, frequency 4, non-video ad. -/
def c6wIns : Insights := { ctr := some (.num (2/100)), frequency := some (.num 4) }

/-- The frequency-saturation recommendation emitted on the C6 witness run. -/
def c6wRec : Recommendation :=
  { title := "Rotacao de Criativos Necessaria"
    severity := .medium
    diagnosis := "Frequencia alta indica saturacao do publico"
    actions :=
      ["Pausar este anuncio por 7 dias",
       "Criar 2-3 variacoes com novos criativos",
       "Expandir publico-alvo em 15-20%"]
    expected_impact := "Melhoria de 15-25% nas taxas de engajamento"
    timeframe := "Imediato" }

/-- Witness for C6 (amended): a concrete run returning one recommendation,
whose action list has between 2 and 5 entries. -/
theorem c6_actions_amended_witness :
    2 ≤ c6wRec.actions.length ∧ c6wRec.actions.length ≤ 5 :=
  c6_actions_amended plainDetails c6wIns none [] ([c6wRec], none)
    (by
      norm_num [generate_ai_optimization_recommendations, temporalStep, emittedRecs,
        ctrRule, costRule, frequencyRule, demoRule, sortRecs, dict_get, safe_float,
        formatsAsFloat, plainDetails, c6wIns, c6wRec, List.insertionSort, List.orderedInsert]
      intro hcon
      exact Option.noConfusion hcon)
    c6wRec (List.mem_singleton.mpr rfl)

/-- Insights for the C8 counterexample: `ctr` is 0, and the raw `frequency`
value is the numeric string "4.2" — `safe_float` parses it to 21/5, passing
the `> 3` guard, and the `:.1f` format of the raw string then raises. -/
def c8Ins : Insights := { ctr := some (.num 0), frequency := some (.numStr (21/5)) }

/-- Counterexample for C8: with ctr normalizing to 0 the rule is triggered,
but instead of emitting it raises `ValueError` — the diagnosis f-string at
app.py line 106 formats the raw string-typed frequency with `:.1f`.  So the
rule does not always fire and emit. -/
theorem c8_counterexample :
    safe_float (dict_get c8Ins.ctr 0) 0 = 0 ∧
    ctrRule plainDetails c8Ins =
      Except.error "ValueError: Unknown format code f for object of type str" := by
  refine ⟨rfl, ?_⟩
  norm_num [ctrRule, dict_get, safe_float, formatsAsFloat, c8Ins, plainDetails]

/-- Claim C8 (amended): for every InsightRecord whose `ctr` field is absent,
empty, malformed, or 0 (so that the normalized value is 0 — e.g., an ad with
zero impressions), the CTR-urgency rule is triggered, since the ctr percent
defaults to 0, below the trigger threshold 1.5 × 0.7 = 1.05; it emits a
severity-high recommendation provided its diagnosis formatting cannot raise,
i.e. the raw `frequency` value is an actual number whenever it parses above
3 and the raw `cpm` value is an actual number whenever it parses above
1.5 × 1.3 = 1.95.  When a string-typed raw value passes its guard the rule
raises `ValueError` instead (see the counterexample). -/
theorem c8_ctr_rule_amended (d : AdDetails) (i : Insights)
    (hctr : safe_float (dict_get i.ctr 0) 0 = 0)
    (hfreq : safe_float (dict_get i.frequency 0) 0 > 3 →
      formatsAsFloat (dict_get i.frequency 0) = true)
    (hcpm : safe_float (dict_get i.cpm 0) 0 > (3/2 : ℚ) * (13/10) →
      formatsAsFloat (dict_get i.cpm 0) = true) :
    ∃ r, ctrRule d i = Except.ok (some r) ∧ r.severity = Severity.high := by
  unfold ctrRule
  dsimp only
  rw [hctr, if_pos (by norm_num)]
  have hf : ¬(safe_float (dict_get i.frequency 0) 0 > 3 ∧
      formatsAsFloat (dict_get i.frequency 0) = false) := by
    rintro ⟨ha, hb⟩
    rw [hfreq ha] at hb
    exact Bool.noConfusion hb
  rw [if_neg hf]
  have hc : ¬(safe_float (dict_get i.cpm 0) 0 > (3/2 : ℚ) * (13/10) ∧
      formatsAsFloat (dict_get i.cpm 0) = false) := by
    rintro ⟨ha, hb⟩
    rw [hcpm ha] at hb
    exact Bool.noConfusion hb
  rw [if_neg hc]
  exact ⟨_, rfl, rfl⟩

/-- Witness for C8 (amended): the rule fires and emits severity high on the
record with no `ctr` key (and no `frequency`/`cpm` keys) at all. -/
theorem c8_ctr_rule_amended_witness :
    ∃ r, ctrRule plainDetails emptyInsights = Except.ok (some r) ∧
      r.severity = Severity.high :=
  c8_ctr_rule_amended plainDetails emptyInsights rfl
    (fun h => absurd h (by norm_num [dict_get, safe_float, emptyInsights]))
    (fun h => absurd h (by norm_num [dict_get, safe_float, emptyInsights]))

end MetaScooop
